import Mathlib

/-!
A shallow embedding of the `my_lox` tree-walking interpreter (Rust) in Lean 4,
together with theorems settling the specification claims about it.

Modelling conventions, applied uniformly:
* Rust `f64` numbers are modelled as `ℚ`.  The source only manipulates numbers
  with arithmetic, comparisons and integer/fraction tests, all of which are
  mirrored on `ℚ`; IEEE-754 special values (inf/NaN, produced only on division
  by zero) are outside the model and no theorem below depends on them.
* `Rc<RefCell<Environment>>` handles are modelled as indices into an explicit
  store (`Store`), a list of environment records; `HashMap`/`HashSet` are
  modelled as association lists with replace-on-insert semantics.
* Fallible Rust code returning `Result` is modelled with explicit outcome
  types.  A Rust `panic!` (or an arithmetic underflow that aborts) is the
  distinguished outcome `panic`.  All recursive evaluation is fuelled; running
  out of fuel is the distinguished outcome `oof`, distinct from `panic`.
* I/O performed by the interpreter (stdout rendering, `clock`, `scan`) is
  external per the specification; the values such calls would produce are
  modelled by fixed constants, and printing is modelled by the sequence of
  runtime values displayed (their textual rendering is external).
* The repository mixes several snapshots of its modules (e.g.
  `environment/mod.rs` references `var_type` and its own error names while
  `handle_errors` defines `EnvironmentError`); where the snapshots disagree the
  behaviour of the module a claim cites is embedded, and the bridging choice is
  recorded in a comment at the definition.
-/

namespace Lox

/-! ## Tokens (`lexer/mod.rs`) -/

inductive TokenType where
  | LEFTPAREN | RIGHTPAREN | LEFTBRACE | RIGHTBRACE | LEFTBRACKET | RIGHTBRACKET
  | COLON | COMMA | DOT | MINUS | MODULUS | PLUS | SEMICOLON | SLASH | STAR
  | BANG | BANGEQUAL | EQUAL | EQUALEQUAL | GREATER | GREATEREQUAL
  | LESS | LESSEQUAL | MINUSEQUAL | MODULUSEQUAL | PLUSEQUAL | SLASHEQUAL | STAREQUAL
  | IDENTIFIER | STRING | NUMBER
  | AND | BREAK | CLASS | CONST | CONTINUE | ELSE | FALSE | FUN | FOR | IF
  | NIL | OR | PRINT | PRINTLN | RETURN | SUPER | THIS | TRUE | VAR | WHILE
  | EOF
deriving DecidableEq, Repr

structure Token where
  token_type : TokenType
  lexeme : String
  line : Nat
deriving DecidableEq, Repr

/-! ## Parser scopes (`environment/mod.rs`) -/

inductive Scope where
  | Global
  | Class (name : String)
  | Method (name : String)
  | Constructor (name : String)
  | Function (name : String)
  | Loop
deriving DecidableEq, Repr

/-! ## Error types (`handle_errors/mod.rs`) -/

inductive ParserError where
  | EOF
  | UnExpectedToken (msg : String) (line : Nat)
  | ObjectKey (msg : String) (line : Nat)
  | MemberExpr (line : Nat)
  | PrimaryExpr (lexeme : String) (line : Nat)
  | ConstValueNull (line : Nat)
  | ForLoopDeclaration (msg : String) (line : Nat)
  | ScopeError (msg : String) (line : Nat)
deriving DecidableEq, Repr

inductive RuntimeError where
  | TypeMismatch (msg : String) (line : Nat)
  | TypeCastingError (msg : String) (line : Nat)
  | InvalidArgumentCount (msg : String) (line : Nat)
  | ArrayIndexOutOfBounds (msg : String) (line : Nat)
  | InvalidArrayIndex (msg : String) (line : Nat)
  | InvalidMemberAccess (msg : String) (line : Nat)
  | UndefinedField (msg : String) (line : Nat)
  | UndefinedProperty (msg : String) (line : Nat)
  | EnvironmentError (msg : String) (line : Nat)
  | InternalError
deriving DecidableEq, Repr

inductive EnvironmentError where
  | ReDeclareVar
  | ConstReassign
  | VarNotDeclared
deriving DecidableEq, Repr

/-! ## AST (`ast/mod.rs`).  `f64` literals are carried as `ℚ`. -/

mutual

inductive Expr where
  | NumericLiteral (num : ℚ) (line : Nat)
  | Null (line : Nat)
  | BoolLiteral (bit : Bool) (line : Nat)
  | StringLiteral (str : String) (line : Nat)
  | Identifier (symbol : String) (line : Nat)
  | This (line : Nat)
  | Super (class_name : String) (line : Nat)
  | Array (elements : List Expr) (line : Nat)
  | Member (object : Expr) (property : Expr) (computed : Bool) (line : Nat)
  | Call (args : List Expr) (caller : Expr) (line : Nat)
  | Unary (operator : Token) (right : Expr) (line : Nat)
  | BinaryExpr (left : Expr) (operator : Token) (right : Expr) (line : Nat)
  | ComparisonLiteral (left : Expr) (operator : Token) (right : Expr) (line : Nat)
  | ObjectLiteral (properties : List Property)
  | AssignmentExpr (assignee : Expr) (value : Expr) (line : Nat)

inductive Property where
  | mk (key : String) (value : Option Expr) (line : Nat)

inductive Stmt where
  | Expression (expr : Expr)
  | VarDeclaration (declaration : VarDecl)
  | Print (value : Option (List Expr)) (new_line : Bool)
  | IfElse (branches : List IfBranch)
  | For (init : Stmt) (cond : Expr) (step : Expr) (body : List Stmt) (line : Nat)
  | While (cond : Expr) (body : List Stmt) (line : Nat)
  | Block (stmts : List Stmt)
  | Return (expr : Expr)
  | Break
  | Continue
  | Function (decl : FunctionDeclaration)
  | Class (decl : ClassDeclaration)

inductive IfBranch where
  | mk (cond : Expr) (body : List Stmt) (line : Nat)

inductive VarDecl where
  | mk (constant : Bool) (identifier : String) (value : Expr) (line : Nat)

inductive FunctionDeclaration where
  | mk (name : String) (parameters : List String) (body : List Stmt) (line : Nat)

inductive ClassDeclaration where
  | mk (name : String) (static_fields : List VarDecl)
       (methods : List (String × FunctionDeclaration))
       (superclass : Option String) (line : Nat)

end

def Property.key : Property → String
  | .mk k _ _ => k

def Property.value : Property → Option Expr
  | .mk _ v _ => v

def Property.line : Property → Nat
  | .mk _ _ l => l

def IfBranch.cond : IfBranch → Expr
  | .mk c _ _ => c

def IfBranch.body : IfBranch → List Stmt
  | .mk _ b _ => b

def IfBranch.line : IfBranch → Nat
  | .mk _ _ l => l

def VarDecl.constant : VarDecl → Bool
  | .mk c _ _ _ => c

def VarDecl.identifier : VarDecl → String
  | .mk _ i _ _ => i

def VarDecl.value : VarDecl → Expr
  | .mk _ _ v _ => v

def VarDecl.line : VarDecl → Nat
  | .mk _ _ _ l => l

def FunctionDeclaration.name : FunctionDeclaration → String
  | .mk n _ _ _ => n

def FunctionDeclaration.parameters : FunctionDeclaration → List String
  | .mk _ p _ _ => p

def FunctionDeclaration.body : FunctionDeclaration → List Stmt
  | .mk _ _ b _ => b

def FunctionDeclaration.line : FunctionDeclaration → Nat
  | .mk _ _ _ l => l

def ClassDeclaration.name : ClassDeclaration → String
  | .mk n _ _ _ _ => n

def ClassDeclaration.static_fields : ClassDeclaration → List VarDecl
  | .mk _ f _ _ _ => f

def ClassDeclaration.methods : ClassDeclaration → List (String × FunctionDeclaration)
  | .mk _ _ m _ _ => m

def ClassDeclaration.superclass : ClassDeclaration → Option String
  | .mk _ _ _ s _ => s

def ClassDeclaration.line : ClassDeclaration → Nat
  | .mk _ _ _ _ l => l

/-! ## Runtime values (`values/mod.rs`).

The snapshot of `values/mod.rs` in the repository is older than the
interpreter (it lacks `Array` and uses borrowed strings); the variants below
follow the shape the interpreter and `global_scope` actually use:
`Array` is present, `NativeFunction` holds the native function
(modelled as a tag, since Rust stores a function pointer), `Method` holds a
boxed function value and a bound instance, and environment handles are store
indices. -/

inductive NativeFn where
  | clock | scan | min | max | number | bool | string | len | type_of
  | reverse | append | remove
deriving DecidableEq, Repr

inductive RuntimeVal where
  | Bool (bit : Bool)
  | Nil
  | Number (num : ℚ)
  | String (str : String)
  | Object (map : List (String × RuntimeVal))
  | Array (arr : List RuntimeVal)
  | Function (name : String) (params : List String) (body : List Stmt) (closure : Nat)
  | NativeFunction (func : NativeFn)
  | Method (func : RuntimeVal) (inst : RuntimeVal)
  | Class (name : String) (static_fields : List (String × RuntimeVal))
          (methods : List (String × RuntimeVal)) (superclass : Option String)
  | Instance (class_name : String) (instance_env : Nat)

inductive EvalResult where
  | Value (v : RuntimeVal)
  | Return (v : RuntimeVal)
  | Break
  | Continue
  | NoDisplay

/-- Outcome of a pure native function (`Result<RuntimeVal, RuntimeError>`,
with `panic` for Rust panics/aborts). -/
inductive RtResult (α : Type) where
  | ok (v : α)
  | err (e : RuntimeError)
  | panic

/-! ## Environments (`environment/mod.rs`).

`Environment { parent, variables, constants }` is a record; the store is the
list of all environments ever created, and handles are indices into it.  The
snapshot of `environment/mod.rs` reports failures with its own
`RuntimeError::{DeclareVar, ConstReassign, UnidentifiedVar}` names which do
not exist in `handle_errors`; the call sites in the interpreter match on
`handle_errors::EnvironmentError::{ReDeclareVar, ConstReassign,
VarNotDeclared}`, so those are the error values used here (the control flow
of the two spellings is identical). -/

structure EnvData where
  parent : Option Nat
  -- the source field is `variables`, a reserved word in Lean 4
  vars : List (String × RuntimeVal)
  constants : List String

abbrev Store := List EnvData

/-- Outcome of a stateful evaluation step.  `ok`/`err` carry the store after
the step (a Rust `Err` leaves already-applied mutations in place); `panic`
models a Rust panic; `oof` is fuel exhaustion of the model (the Rust code
would simply keep running). -/
inductive RtOutcome (α : Type) where
  | ok (s : Store) (v : α)
  | err (s : Store) (e : RuntimeError)
  | panic
  | oof

/-- Sequencing that mirrors Rust's `?` operator on fallible evaluation. -/
def RtOutcome.andThen (r : RtOutcome α) (f : Store → α → RtOutcome β) : RtOutcome β :=
  match r with
  | .ok s v => f s v
  | .err s e => .err s e
  | .panic => .panic
  | .oof => .oof

/-- `HashMap::contains_key`. -/
def mapContains (m : List (String × RuntimeVal)) (k : String) : Bool :=
  m.any (fun p => p.1 == k)

/-- `HashMap::insert` (replace an existing binding, else append). -/
def mapInsert (m : List (String × RuntimeVal)) (k : String) (v : RuntimeVal) :
    List (String × RuntimeVal) :=
  if mapContains m k then
    m.map (fun p => if p.1 == k then (k, v) else p)
  else
    m ++ [(k, v)]

/-- `HashMap::get`. -/
def mapGet (m : List (String × RuntimeVal)) (k : String) : Option RuntimeVal :=
  (m.find? (fun p => p.1 == k)).map Prod.snd

/-- Reading an environment record; indices produced by `env_new` are always
in bounds, the default is unreachable. -/
def storeGet (s : Store) (envId : Nat) : EnvData :=
  (s.get? envId).getD ⟨none, [], []⟩

def declare_var (s : Store) (envId : Nat) (var_name : String) (value : RuntimeVal)
    (constant : Bool) : Except EnvironmentError Store :=
  let e := storeGet s envId
  if mapContains e.vars var_name then
    .error .ReDeclareVar
  else
    .ok (s.set envId
      { e with
        vars := mapInsert e.vars var_name value
        constants := if constant then e.constants ++ [var_name] else e.constants })

/-- `resolve`, with recursion fuelled by the chain length (parent chains built
by `env_new` are acyclic, so `s.length + 1` steps always suffice). -/
def resolve_aux (s : Store) (var_name : String) : Nat → Nat → Option Nat
  | 0, _ => none
  | fuel + 1, envId =>
    let e := storeGet s envId
    if mapContains e.vars var_name then some envId
    else
      match e.parent with
      | some parent => resolve_aux s var_name fuel parent
      | none => none

def resolve (s : Store) (envId : Nat) (var_name : String) : Option Nat :=
  resolve_aux s var_name (s.length + 1) envId

def assign_var (s : Store) (envId : Nat) (var_name : String) (value : RuntimeVal) :
    Except EnvironmentError Store :=
  match resolve s envId var_name with
  | none => .error .VarNotDeclared
  | some i =>
    let e := storeGet s i
    if e.constants.contains var_name then .error .ConstReassign
    else .ok (s.set i { e with vars := mapInsert e.vars var_name value })

def lookup_var (s : Store) (envId : Nat) (var_name : String) :
    Except EnvironmentError RuntimeVal :=
  match resolve s envId var_name with
  | none => .error .VarNotDeclared
  | some i =>
    match mapGet (storeGet s i).vars var_name with
    | some v => .ok v
    | none => .error .VarNotDeclared

/-- A `let _ = declare_var(...)` step (errors are discarded and leave the
environment unchanged), as in `set_global_scope`. -/
def declare_ignore (s : Store) (envId : Nat) (var_name : String) (value : RuntimeVal)
    (constant : Bool) : Store :=
  match declare_var s envId var_name value constant with
  | .ok s' => s'
  | .error _ => s

/-- `set_global_scope`: the snapshot declares exactly these eight builtins, in
this order, all constant.  The name `var_type` is bound to the native function
called `type_of` in `global_scope/mod.rs` (the module's sole candidate for the
stale `var_type` symbol; its error strings still say `var_type`). -/
def set_global_scope (s : Store) (envId : Nat) : Store :=
  let s := declare_ignore s envId "clock" (.NativeFunction .clock) true
  let s := declare_ignore s envId "min" (.NativeFunction .min) true
  let s := declare_ignore s envId "max" (.NativeFunction .max) true
  let s := declare_ignore s envId "number" (.NativeFunction .number) true
  let s := declare_ignore s envId "bool" (.NativeFunction .bool) true
  let s := declare_ignore s envId "string" (.NativeFunction .string) true
  let s := declare_ignore s envId "var_type" (.NativeFunction .type_of) true
  let s := declare_ignore s envId "reverse" (.NativeFunction .reverse) true
  s

/-- `Environment::new`: allocate a fresh record and — in this snapshot,
unconditionally, whether or not a parent is supplied — run
`set_global_scope` on it.  Returns the updated store and the new handle. -/
def env_new (parent_env : Option Nat) (s : Store) : Store × Nat :=
  let envId := s.length
  let s := s ++ [⟨parent_env, [], []⟩]
  (set_global_scope s envId, envId)

/-! ## Numeric helpers for the `f64`-as-`ℚ` model -/

/-- `f64::fract() != 0.0`: the number has a fractional part. -/
def hasFract (q : ℚ) : Bool := q.den != 1

/-- `*pos as usize` for a non-negative integral `f64`. -/
def ratToUsize (q : ℚ) : Nat := q.num.toNat

/-- Rust `f64 % f64` (remainder truncating toward zero).  `x % 0.0` is NaN in
IEEE-754, which has no counterpart in `ℚ`; it is modelled as `0` and no
theorem depends on it. -/
def f64_rem (lhs rhs : ℚ) : ℚ :=
  if rhs = 0 then 0
  else
    let q := lhs / rhs
    lhs - rhs * ((if q < 0 then Int.ceil q else Int.floor q) : ℤ)

/-- Rust `f64` `Display` rendering, used by `string(...)` and diagnostics.
The host's float formatting is external per the specification; the rational's
own rendering stands in for it and no theorem depends on the exact text. -/
def f64_display (q : ℚ) : String := toString q

/-- Model of `str::parse::<f64>()` restricted to plain decimal forms
`[-]digits[.digits]` (the forms the language's lexer and tests produce);
other accepted Rust spellings (exponents, `inf`, `nan`, leading `+`) are out
of the model and no theorem depends on them. -/
def parse_f64 (s : String) : Option ℚ :=
  let cs := s.toList
  let (neg, cs) := match cs with
    | '-' :: rest => (true, rest)
    | _ => (false, cs)
  let intPart := cs.takeWhile (fun c => c.isDigit)
  let rest := cs.dropWhile (fun c => c.isDigit)
  if intPart.isEmpty then none
  else
    let digitsVal (l : List Char) : Nat :=
      l.foldl (fun acc c => acc * 10 + (c.toNat - '0'.toNat)) 0
    let whole : ℚ := (digitsVal intPart : ℚ)
    let signed (q : ℚ) : ℚ := if neg then -q else q
    match rest with
    | [] => some (signed whole)
    | '.' :: frac =>
      if frac.isEmpty || !(frac.all (fun c => c.isDigit)) then none
      else some (signed (whole + (digitsVal frac : ℚ) / ((10 : ℚ) ^ frac.length)))
    | _ => none

/-! ## Builtin library (`global_scope/mod.rs`).

Each native takes the evaluated argument values and the call line.  The
functions are embedded exactly as written, including the comparison direction
in `min`, the `position = array.len() - 1` in `append`/`remove` (a `usize`
underflow — a Rust abort — when the array is empty), and the off-by-one
quirks in the diagnostic strings. -/

namespace GlobalScope

/-- Wall-clock reading is external I/O; the returned instant is modelled as
the unspecified constant `0`.  The arity check is from the source. -/
def clock (args : List RuntimeVal) (line : Nat) : RtResult RuntimeVal :=
  if args.length > 0 then
    .err (.InvalidArgumentCount
      s!"Expected 1, found {args.length} arguments provided to native function \x27clock\x27" line)
  else
    .ok (.Number 0)

/-- Reading stdin is external I/O; the line read is modelled as the
unspecified constant `""`.  The arity check (and its `reverse` message) is
from the source. -/
def scan (args : List RuntimeVal) (line : Nat) : RtResult RuntimeVal :=
  if args.length != 0 then
    .err (.InvalidArgumentCount
      s!"Expected 1, found {args.length} arguments provided to native function \x27reverse\x27" line)
  else
    .ok (.String "")

/-- The `for arg in &args[1..]` accumulation loop shared by `min` and `max`
(both run `if *num > acc { acc = *num }`); `msg` is the per-function
type-mismatch message. -/
def min_max_fold (msg : String) (line : Nat) : List RuntimeVal → ℚ → RtResult RuntimeVal
  | [], acc => .ok (.Number acc)
  | arg :: rest, acc =>
    match arg with
    | .Number num => min_max_fold msg line rest (if num > acc then num else acc)
    | _ => .err (.TypeMismatch msg line)

def min (args : List RuntimeVal) (line : Nat) : RtResult RuntimeVal :=
  if args.length < 2 then
    .err (.InvalidArgumentCount
      s!"Expected more than 2, found {args.length} arguments provided to native function \x27min\x27" line)
  else
    match args with
    | [] => .panic -- unreachable: `args[0]` with `args.len() ≥ 2`
    | first :: rest =>
      match first with
      | .Number num =>
        min_max_fold "Only type number and array allowed in \x27min\x27 function" line rest num
      | _ =>
        .err (.TypeMismatch "Only type number and array allowed in \x27min\x27 function" line)

def max (args : List RuntimeVal) (line : Nat) : RtResult RuntimeVal :=
  if args.length < 2 then
    .err (.InvalidArgumentCount
      s!"Expected more than 2, found {args.length} arguments provided to native function \x27max\x27" line)
  else
    match args with
    | [] => .panic -- unreachable: `args[0]` with `args.len() ≥ 2`
    | first :: rest =>
      match first with
      | .Number num =>
        -- the loop's error message in `max` says 'min' in the source
        min_max_fold "Only type number and array allowed in \x27min\x27 function" line rest num
      | _ =>
        .err (.TypeMismatch "Only type number and array allowed in \x27max\x27 function" line)

def number (args : List RuntimeVal) (line : Nat) : RtResult RuntimeVal :=
  if args.length != 1 then
    .err (.InvalidArgumentCount
      s!"Expected 1, found {args.length} arguments provided to native function \x27number\x27" line)
  else
    match args.headD .Nil with
    | .Number num => .ok (.Number num)
    | .Bool bit => if bit then .ok (.Number 1) else .ok (.Number 0)
    | .String str =>
      match parse_f64 str with
      | some n => .ok (.Number n)
      | none => .err (.TypeCastingError
          "Invalid string provided, expected numeric string in \x27number\x27 function" line)
    | _ => .err (.TypeMismatch
        "Only type number, bool and string allowed in \x27number\x27 function" line)

def bool (args : List RuntimeVal) (line : Nat) : RtResult RuntimeVal :=
  if args.length != 1 then
    .err (.InvalidArgumentCount
      s!"Expected 1, found {args.length} arguments provided to native function \x27bool\x27" line)
  else
    match args.headD .Nil with
    | .Number num => if num = 0 then .ok (.Bool false) else .ok (.Bool true)
    | .Bool bit => .ok (.Bool bit)
    | .String str => if str.length = 0 then .ok (.Bool false) else .ok (.Bool true)
    | _ => .err (.TypeMismatch
        "Only type number, bool and string allowed in \x27bool\x27 function" line)

def string (args : List RuntimeVal) (line : Nat) : RtResult RuntimeVal :=
  if args.length != 1 then
    .err (.InvalidArgumentCount
      s!"Expected 1, found {args.length} arguments provided to native function \x27string\x27" line)
  else
    match args.headD .Nil with
    | .Number num => .ok (.String (f64_display num))
    | .Bool bit => if bit then .ok (.String "true") else .ok (.String "false")
    | .String str => .ok (.String str)
    | _ => .err (.TypeMismatch
        "Only type number, bool and string allowed in \x27string\x27 function" line)

/-- `len`; the source measures strings with `str::len` (bytes) — character
count coincides for the ASCII strings the theorems use. -/
def len (args : List RuntimeVal) (line : Nat) : RtResult RuntimeVal :=
  if args.length != 1 then
    .err (.InvalidArgumentCount
      s!"Expected 1, found {args.length} arguments provided to native function \x27var_type\x27" line)
  else
    match args.headD .Nil with
    | .String s => .ok (.Number (s.length : ℚ))
    | .Array arr => .ok (.Number (arr.length : ℚ))
    | _ => .err (.TypeMismatch "Only type string and array allowed in \x27len\x27 function" line)

def type_of (args : List RuntimeVal) (line : Nat) : RtResult RuntimeVal :=
  if args.length != 1 then
    .err (.InvalidArgumentCount
      s!"Expected 1, found {args.length} arguments provided to native function \x27var_type\x27" line)
  else
    match args.headD .Nil with
    | .Number _ => .ok (.String "Number")
    | .Bool _ => .ok (.String "Bool")
    | .Nil => .ok (.String "Nil")
    | .String _ => .ok (.String "String")
    | .Object _ => .ok (.String "Object")
    | .Array _ => .ok (.String "Array")
    | .Function _ _ _ _ => .ok (.String "Function")
    | .NativeFunction _ => .ok (.String "Native function")
    | .Method _ _ => .ok (.String "Method")
    | .Class _ _ _ _ => .ok (.String "Class")
    | .Instance _ _ => .ok (.String "Instance")

def reverse (args : List RuntimeVal) (line : Nat) : RtResult RuntimeVal :=
  if args.length != 1 then
    .err (.InvalidArgumentCount
      s!"Expected 1, found {args.length} arguments provided to native function \x27reverse\x27" line)
  else
    match args.headD .Nil with
    | .String s => .ok (.String ⟨s.toList.reverse⟩)
    | .Array arr => .ok (.Array arr.reverse)
    | _ => .err (.TypeMismatch "Only type string allowed in \x27reverse\x27 function" line)

def append (args : List RuntimeVal) (line : Nat) : RtResult RuntimeVal :=
  if args.length < 2 || args.length > 3 then
    .err (.InvalidArgumentCount
      s!"Expected 2 | 3, found {args.length} arguments provided to native function \x27append\x27" line)
  else
    match args.headD .Nil with
    | .Array array =>
      let val := args.getD 1 .Nil
      if args.length == 2 then
        -- `position = array.len() - 1`: `usize` underflow aborts on `[]`
        if array.length == 0 then .panic
        else .ok (.Array (array.insertIdx (array.length - 1) val))
      else
        match args.getD 2 .Nil with
        | .Number pos =>
          if pos < 0 || hasFract pos then
            .err (.InvalidArrayIndex
              s!"\x27{f64_display pos}\x27 is an invalid type. Arrays can only be accessed with positive integers" line)
          else
            let pos_num := ratToUsize pos
            if pos_num ≥ array.length then
              .err (.ArrayIndexOutOfBounds "Array index is out of bounds" line)
            else .ok (.Array (array.insertIdx pos_num val))
        | _ => .err (.TypeMismatch
            "Only type number allowed as third argument in \x27append\x27 function" line)
    | _ => .err (.TypeMismatch
        "Only type array allowed as first argument in \x27append\x27 function" line)

def remove (args : List RuntimeVal) (line : Nat) : RtResult RuntimeVal :=
  if args.length < 1 || args.length > 2 then
    .err (.InvalidArgumentCount
      s!"Expected 2 | 3, found {args.length} arguments provided to native function \x27remove\x27" line)
  else
    match args.headD .Nil with
    | .Array array =>
      if args.length == 1 then
        -- `position = array.len() - 1`: `usize` underflow aborts on `[]`
        if array.length == 0 then .panic
        else .ok (.Array (array.eraseIdx (array.length - 1)))
      else
        match args.getD 1 .Nil with
        | .Number pos =>
          if pos < 0 || hasFract pos then
            .err (.InvalidArrayIndex
              s!"\x27{f64_display pos}\x27 is an invalid type. Arrays can only be accessed with positive integers" line)
          else
            let pos_num := ratToUsize pos
            if pos_num ≥ array.length then
              .err (.ArrayIndexOutOfBounds "Array index is out of bounds" line)
            else .ok (.Array (array.eraseIdx pos_num))
        | _ => .err (.TypeMismatch
            "Only type number allowed as third argument in \x27remove\x27 function" line)
    | _ => .err (.TypeMismatch
        "Only type array allowed as first argument in \x27remove\x27 function" line)

end GlobalScope

/-- Dispatch for `RuntimeVal::NativeFunction` values (the Rust value holds
the function pointer itself). -/
def native_impl : NativeFn → List RuntimeVal → Nat → RtResult RuntimeVal
  | .clock => GlobalScope.clock
  | .scan => GlobalScope.scan
  | .min => GlobalScope.min
  | .max => GlobalScope.max
  | .number => GlobalScope.number
  | .bool => GlobalScope.bool
  | .string => GlobalScope.string
  | .len => GlobalScope.len
  | .type_of => GlobalScope.type_of
  | .reverse => GlobalScope.reverse
  | .append => GlobalScope.append
  | .remove => GlobalScope.remove

/-! ## Expression evaluator (`interpreter/expression/mod.rs`) -/

/-- Lift a store-independent `Result` into the stateful outcome. -/
def liftResult (s : Store) : Except RuntimeError RuntimeVal → RtOutcome RuntimeVal
  | .ok v => .ok s v
  | .error e => .err s e

def evaluate_identifier (ident : String) (env : Nat) (s : Store) (line : Nat) :
    RtOutcome RuntimeVal :=
  match lookup_var s env ident with
  | .ok val => .ok s val
  | .error _ => .err s (.EnvironmentError s!"\x27{ident}\x27 is not declared." line)

def evaluate_super_expr (class_name : String) (env : Nat) (s : Store) (line : Nat) :
    RtOutcome RuntimeVal :=
  match lookup_var s env class_name with
  | .ok (.Class name _ _ superclass) =>
    match superclass with
    | some parent_class =>
      match lookup_var s env parent_class with
      | .ok val => .ok s val
      | .error _ => .err s (.EnvironmentError
          s!"Cannot use \x27super\x27 in \x27{name}\x27 class as parent class \x27{parent_class}\x27 is not declared"
          line)
    | none => .err s .InternalError
  | _ => .err s .InternalError

def evaluate_numeric_binary_expr (lhs rhs : ℚ) (operator : String) : RuntimeVal :=
  .Number (match operator with
    | "+" => lhs + rhs
    | "-" => lhs - rhs
    | "*" => lhs * rhs
    | "/" => lhs / rhs -- division by zero is IEEE inf/NaN in Rust, out of the ℚ model
    | _ => f64_rem lhs rhs)

def evaluate_logical_expr (left right : RuntimeVal) (operator : String) (line : Nat) :
    Except RuntimeError RuntimeVal :=
  match left, right with
  | .Bool lhs, .Bool rhs =>
    match operator with
    | "and" => .ok (.Bool (lhs && rhs))
    | _ => .ok (.Bool (lhs || rhs))
  | _, _ => .error (.TypeMismatch
      s!"{operator} logical operation is only valid for bools" line)

def evaluate_equality_expr (left right : RuntimeVal) (operator : String) (line : Nat) :
    Except RuntimeError RuntimeVal :=
  match left, right with
  | .Number num1, .Number num2 =>
    .ok (.Bool (match operator with
      | "==" => num1 == num2
      | _ => num1 != num2))
  | .Bool bit1, .Bool bit2 =>
    .ok (.Bool (match operator with
      | "==" => bit1 == bit2
      | _ => bit1 != bit2))
  | .String str1, .String str2 =>
    .ok (.Bool (match operator with
      | "==" => str1 == str2
      | _ => str1 != str2))
  | _, _ => .error (.TypeMismatch
      s!"{operator} equality operation is only valid for numbers, bools and strings" line)

def evaluate_comparison_expr (left right : RuntimeVal) (operator : String) (line : Nat) :
    Except RuntimeError RuntimeVal :=
  match left, right with
  | .Number num1, .Number num2 =>
    .ok (.Bool (match operator with
      | ">" => decide (num1 > num2)
      | ">=" => decide (num1 ≥ num2)
      | "<" => decide (num1 < num2)
      | _ => decide (num1 ≤ num2)))
  | .Bool bit1, .Bool bit2 =>
    -- Rust `bool` ordering: `false < true`
    .ok (.Bool (match operator with
      | ">" => bit1 && !bit2
      | ">=" => bit1 || !bit2
      | "<" => !bit1 && bit2
      | _ => !bit1 || bit2))
  | .String str1, .String str2 =>
    .ok (.Bool (match operator with
      | ">" => decide (str2 < str1)
      | ">=" => !decide (str1 < str2)
      | "<" => decide (str1 < str2)
      | _ => !decide (str2 < str1)))
  | _, _ => .error (.TypeMismatch
      s!"{operator} comparison operation is only valid for numbers, bools and strings" line)

/-- `for (name, func) in &class.methods { methods.insert(name, make_function(..)) }`. -/
def build_methods (methods : List (String × FunctionDeclaration)) (env : Nat) :
    List (String × RuntimeVal) :=
  methods.foldl
    (fun m p => mapInsert m p.1 (.Function p.2.name p.2.parameters p.2.body env)) []

mutual

def evaluate_expr (fuel : Nat) (expr : Expr) (env : Nat) (s : Store) :
    RtOutcome RuntimeVal :=
  match fuel with
  | 0 => .oof
  | fuel + 1 =>
    match expr with
    | .NumericLiteral num _ => .ok s (.Number num)
    | .Null _ => .ok s .Nil
    | .BoolLiteral bit _ => .ok s (.Bool bit)
    | .StringLiteral str _ => .ok s (.String str)
    | .Identifier symbol line => evaluate_identifier symbol env s line
    | .This line => evaluate_identifier "this" env s line
    | .Super class_name line => evaluate_super_expr class_name env s line
    | .Array array _ => evaluate_array_elems fuel array env s []
    | .Member object property computed line =>
      evaluate_member_expr fuel object property computed env s line
    | .Call args caller line => evaluate_function_call fuel args caller env s line
    | .Unary operator right line => evaluate_unary_expr fuel operator right env s line
    | .BinaryExpr left operator right line =>
      evaluate_binary_expr fuel left operator right env s line
    | .ComparisonLiteral left operator right line =>
      evaluate_compare_expr fuel left operator right env s line
    | .ObjectLiteral properties =>
      (evaluate_object_props fuel properties env s []).andThen fun s map =>
        .ok s (.Object map)
    | .AssignmentExpr assignee value line =>
      evaluate_assignment fuel assignee value env s line
termination_by structural fuel

def evaluate_unary_expr (fuel : Nat) (operator : Token) (right : Expr) (env : Nat)
    (s : Store) (line : Nat) : RtOutcome RuntimeVal :=
  match fuel with
  | 0 => .oof
  | fuel + 1 =>
    (evaluate_expr fuel right env s).andThen fun s value =>
      if operator.token_type == .BANG then
        match value with
        | .Bool bit => .ok s (.Bool (!bit))
        | _ => .err s (.TypeMismatch "\x27!\x27 NOT operator is only valid for bools" line)
      else
        match value with
        | .Number num => .ok s (.Number (-num))
        | _ => .err s (.TypeMismatch "\x27-\x27 negation operator is only valid for numbers" line)
termination_by structural fuel

def evaluate_binary_expr (fuel : Nat) (left : Expr) (operator : Token) (right : Expr)
    (env : Nat) (s : Store) (line : Nat) : RtOutcome RuntimeVal :=
  match fuel with
  | 0 => .oof
  | fuel + 1 =>
    (evaluate_expr fuel left env s).andThen fun s left_hand_side =>
      (evaluate_expr fuel right env s).andThen fun s right_hand_side =>
        match left_hand_side, right_hand_side with
        | .Number lhs, .Number rhs =>
          .ok s (evaluate_numeric_binary_expr lhs rhs operator.lexeme)
        | _, _ =>
          let lex := operator.lexeme
          .err s (.TypeMismatch s!"{lex} operation is not valid for two non-numbers" line)
termination_by structural fuel

def evaluate_compare_expr (fuel : Nat) (left : Expr) (operator : Token) (right : Expr)
    (env : Nat) (s : Store) (line : Nat) : RtOutcome RuntimeVal :=
  match fuel with
  | 0 => .oof
  | fuel + 1 =>
    (evaluate_expr fuel left env s).andThen fun s left_hand_side =>
      (evaluate_expr fuel right env s).andThen fun s right_hand_side =>
        if operator.token_type == .AND || operator.token_type == .OR then
          liftResult s (evaluate_logical_expr left_hand_side right_hand_side operator.lexeme line)
        else if operator.token_type == .EQUALEQUAL || operator.token_type == .BANGEQUAL then
          liftResult s (evaluate_equality_expr left_hand_side right_hand_side operator.lexeme line)
        else
          liftResult s (evaluate_comparison_expr left_hand_side right_hand_side operator.lexeme line)
termination_by structural fuel

/-- The property loop of `evaluate_object_expr`, accumulating the map. -/
def evaluate_object_props (fuel : Nat) (obj : List Property) (env : Nat) (s : Store)
    (map : List (String × RuntimeVal)) : RtOutcome (List (String × RuntimeVal)) :=
  match fuel with
  | 0 => .oof
  | fuel + 1 =>
    match obj with
    | [] => .ok s map
    | prop :: rest =>
      let afterVal : RtOutcome RuntimeVal :=
        match prop.value with
        | some expr => evaluate_expr fuel expr env s
        | none =>
          match lookup_var s env prop.key with
          | .ok val => .ok s val
          | .error _ =>
            let k := prop.key
            .err s (.EnvironmentError s!"{k} is not declared yet." prop.line)
      afterVal.andThen fun s runtime_val =>
        evaluate_object_props fuel rest env s (mapInsert map prop.key runtime_val)
termination_by structural fuel

/-- The element loop of `evaluate_array_expr`. -/
def evaluate_array_elems (fuel : Nat) (array : List Expr) (env : Nat) (s : Store)
    (acc : List RuntimeVal) : RtOutcome RuntimeVal :=
  match fuel with
  | 0 => .oof
  | fuel + 1 =>
    match array with
    | [] => .ok s (.Array acc)
    | arr :: rest =>
      (evaluate_expr fuel arr env s).andThen fun s v =>
        evaluate_array_elems fuel rest env s (acc ++ [v])
termination_by structural fuel

def evaluate_assignment (fuel : Nat) (assignee : Expr) (value : Expr) (env : Nat)
    (s : Store) (line : Nat) : RtOutcome RuntimeVal :=
  match fuel with
  | 0 => .oof
  | fuel + 1 =>
    match assignee with
    | .Identifier ident iline =>
      (evaluate_expr fuel value env s).andThen fun s val =>
        match assign_var s env ident val with
        | .ok s' => .ok s' val
        | .error .ConstReassign =>
          .err s (.EnvironmentError
            s!"{ident} is a constant. Constant values cannot be reassigned" iline)
        | .error .VarNotDeclared =>
          .err s (.EnvironmentError s!"{ident} has not been declared yet." iline)
        | .error .ReDeclareVar => .err s .InternalError
    | .Member object property computed mline =>
      -- `let _ = equate_member_expr(...)`: the member store's Result — its
      -- error included — is discarded, and the value expression is
      -- evaluated a second time for the overall result.
      match equate_member_expr fuel object property computed value env s mline with
      | .panic => .panic
      | .oof => .oof
      | .ok s' _ => evaluate_expr fuel value env s'
      | .err s' _ => evaluate_expr fuel value env s'
    | _ => .err s (.TypeMismatch
        "Only variables and member expressions can be assigned values" line)
termination_by structural fuel

/-- The `for i in 0..args.len()` argument-binding loop of
`evaluate_function_body`: each argument is evaluated in `local_env` (the
callee's fresh environment) and declared there under the parameter name. -/
def bind_args (fuel : Nat) (args : List Expr) (params : List String) (local_env : Nat)
    (line : Nat) (s : Store) : RtOutcome Unit :=
  match fuel with
  | 0 => .oof
  | fuel + 1 =>
    match args, params with
    | [], _ => .ok s ()
    | _ :: _, [] => .ok s () -- unreachable: the arity check gives equal lengths
    | arg :: args', param :: params' =>
      (evaluate_expr fuel arg local_env s).andThen fun s value =>
        match declare_var s local_env param value false with
        | .ok s' => bind_args fuel args' params' local_env line s'
        | .error _ =>
          .err s (.EnvironmentError
            s!"{param} is already declared. Cannot redeclare variable with same name" line)
termination_by structural fuel

/-- The statement loop of `evaluate_function_body`: a `Return` yields its
value, anything else continues; falling off the end yields `Nil`. -/
def run_function_body (fuel : Nat) (body : List Stmt) (local_env : Nat) (s : Store) :
    RtOutcome RuntimeVal :=
  match fuel with
  | 0 => .oof
  | fuel + 1 =>
    match body with
    | [] => .ok s .Nil
    | stmt :: rest =>
      (evaluate fuel stmt local_env s).andThen fun s res =>
        match res with
        | .Return val => .ok s val
        | _ => run_function_body fuel rest local_env s
termination_by structural fuel

def evaluate_function_body (fuel : Nat) (name : String) (args : List Expr)
    (params : List String) (body : List Stmt) (local_env : Nat) (index : Nat)
    (line : Nat) (s : Store) : RtOutcome RuntimeVal :=
  match fuel with
  | 0 => .oof
  | fuel + 1 =>
    let callable := ["function", "method", "constructor"]
    if args.length != params.length then
      let expected := params.length
      let found := args.length
      let kind := callable.getD index ""
      .err s (.InvalidArgumentCount
        s!"Expected {expected}, found {found} arguments provided to {kind} {name}" line)
    else
      (bind_args fuel args params local_env line s).andThen fun s _ =>
        run_function_body fuel body local_env s
termination_by structural fuel

/-- The argument loop of the `NativeFunction` arm: arguments are evaluated
in the caller's environment. -/
def eval_args_list (fuel : Nat) (args : List Expr) (env : Nat) (s : Store)
    (acc : List RuntimeVal) : RtOutcome (List RuntimeVal) :=
  match fuel with
  | 0 => .oof
  | fuel + 1 =>
    match args with
    | [] => .ok s acc
    | arg :: rest =>
      (evaluate_expr fuel arg env s).andThen fun s v =>
        eval_args_list fuel rest env s (acc ++ [v])
termination_by structural fuel

def evaluate_function_call (fuel : Nat) (args : List Expr) (caller : Expr) (env : Nat)
    (s : Store) (line : Nat) : RtOutcome RuntimeVal :=
  match fuel with
  | 0 => .oof
  | fuel + 1 =>
    (evaluate_expr fuel caller env s).andThen fun s call =>
      match call with
      | .Class name _ methods _ =>
        let (s, instance_env) := env_new none s
        let inst := RuntimeVal.Instance name instance_env
        (match mapGet methods name with
         | some (.Function fname params body closure) =>
           let (s, local_env) := env_new (some closure) s
           (match declare_var s local_env "this" inst false with
            | .error _ => .err s .InternalError
            | .ok s =>
              (evaluate_function_body fuel fname args params body local_env 2 line s).andThen
                fun s _ => .ok s inst)
         | _ => .ok s inst)
      | .Method func inst =>
        (match func with
         | .Function fname params body closure =>
           let (s, local_env) := env_new (some closure) s
           (match declare_var s local_env "this" inst true with
            | .error _ => .err s .InternalError
            | .ok s => evaluate_function_body fuel fname args params body local_env 1 line s)
         | _ => .ok s .Nil) -- `if let` falls through to `Ok(make_nil())`
      | .Function fname params body closure =>
        let (s, local_env) := env_new (some closure) s
        evaluate_function_body fuel fname args params body local_env 0 line s
      | .NativeFunction func =>
        (eval_args_list fuel args env s []).andThen fun s values =>
          match native_impl func values line with
          | .ok v => .ok s v
          | .err e => .err s e
          | .panic => .panic
      | _ => .panic -- `_ => panic!()` in the source
termination_by structural fuel

/-- The dotted-access `loop` of `evaluate_member_expr`, walking objects,
classes, superclasses, and instances; `method_exists` is the pending bound
instance. -/
def member_loop (fuel : Nat) (obj : RuntimeVal) (method_exists : Option RuntimeVal)
    (lexeme : String) (env : Nat) (s : Store) (line : Nat) : RtOutcome RuntimeVal :=
  match fuel with
  | 0 => .oof
  | fuel + 1 =>
    match obj with
    | .Object map =>
      match mapGet map lexeme with
      | some value => .ok s value
      | none =>
        .err s (.UndefinedField s!"Object has no field named \x27{lexeme}\x27" line)
    | .Class name static_fields methods superclass =>
      (match mapGet methods lexeme with
       | some method =>
         (match method_exists with
          | some val => .ok s (.Method method val)
          | none => .ok s method)
       | none =>
         match mapGet static_fields lexeme with
         | some static_field => .ok s static_field
         | none =>
           match superclass with
           | some parent =>
             (match lookup_var s env parent with
              | .ok val => member_loop fuel val method_exists lexeme env s line
              | .error _ =>
                .err s (.EnvironmentError
                  s!"\x27{parent}\x27 superclass is not defined but is inherited by class \x27{name}\x27."
                  line))
           | none =>
             .err s (.UndefinedProperty
               s!"Property \x27{lexeme}\x27 is not defined in class \x27{name}\x27 or superclasses"
               line))
    | .Instance class_name instance_env =>
      (match lookup_var s instance_env lexeme with
       | .ok value => .ok s value
       | .error _ =>
         match lookup_var s env class_name with
         | .ok class_val =>
           member_loop fuel class_val (some (.Instance class_name instance_env)) lexeme env s line
         | .error _ => .err s .InternalError)
    | _ => .err s (.InvalidMemberAccess "." line)
termination_by structural fuel

def evaluate_member_expr (fuel : Nat) (object : Expr) (property : Expr) (computed : Bool)
    (env : Nat) (s : Store) (line : Nat) : RtOutcome RuntimeVal :=
  match fuel with
  | 0 => .oof
  | fuel + 1 =>
    (evaluate_expr fuel object env s).andThen fun s obj =>
      if computed then
        (evaluate_expr fuel property env s).andThen fun s key =>
          match obj, key with
          | .Object map, .String str =>
            (match mapGet map str with
             | some val => .ok s val
             | none => .ok s .Nil)
          | .String str, .Number num =>
            if num < 0 || hasFract num then
              .err s (.InvalidArrayIndex
                s!"\x27{f64_display num}\x27 is an invalid type. Arrays can only be accessed with positive integers" line)
            else
              let pos_num := ratToUsize num
              if pos_num ≥ str.length then
                .err s (.ArrayIndexOutOfBounds "Array index is out of bounds" line)
              else
                .ok s (.String ⟨[str.toList.getD pos_num ' ']⟩)
          | .Array arr, .Number num =>
            if num < 0 || hasFract num then
              .err s (.InvalidArrayIndex
                s!"\x27{f64_display num}\x27 is an invalid type. Arrays can only be accessed with positive integers" line)
            else
              let pos_num := ratToUsize num
              if pos_num ≥ arr.length then
                .err s (.ArrayIndexOutOfBounds "Array index is out of bounds" line)
              else
                .ok s (arr.getD pos_num .Nil)
          | _, _ => .err s (.InvalidMemberAccess "[]" line)
      else
        match property with
        | .Identifier lexeme _ => member_loop fuel obj none lexeme env s line
        | _ => .err s .InternalError
termination_by structural fuel

def equate_member_expr (fuel : Nat) (object : Expr) (property : Expr) (computed : Bool)
    (value : Expr) (env : Nat) (s : Store) (line : Nat) : RtOutcome RuntimeVal :=
  match fuel with
  | 0 => .oof
  | fuel + 1 =>
    (evaluate_expr fuel value env s).andThen fun s result =>
      (evaluate_expr fuel object env s).andThen fun s obj =>
        match object with
        | .Identifier lexeme_name _ =>
          let store_step : RtOutcome Unit :=
            if computed then
              (evaluate_expr fuel property env s).andThen fun s key =>
                match obj, key with
                | .Object map, .String str =>
                  let val := RuntimeVal.Object (mapInsert map str result)
                  (match assign_var s env lexeme_name val with
                   | .ok s' => .ok s' ()
                   | .error _ =>
                     .err s (.EnvironmentError
                       s!"\x27{lexeme_name}\x27 is a constant. Constant values cannot be reassigned." line))
                | .String str, .Number num =>
                  if num < 0 || hasFract num then
                    .err s (.InvalidArrayIndex
                      s!"\x27{f64_display num}\x27 is an invalid type. Arrays can only be accessed with positive integers" line)
                  else
                    let pos_num := ratToUsize num
                    if pos_num ≥ str.length then
                      .err s (.ArrayIndexOutOfBounds "Array index is out of bounds" line)
                    else
                      (match result with
                       | .String res =>
                         let new_str : String :=
                           ⟨str.toList.take pos_num ++ res.toList ++ str.toList.drop (pos_num + 1)⟩
                         (match assign_var s env lexeme_name (.String new_str) with
                          | .ok s' => .ok s' ()
                          | .error _ =>
                            .err s (.EnvironmentError
                              s!"\x27{lexeme_name}\x27 is a constant. Constant values cannot be reassigned." line))
                       | _ =>
                         .err s (.TypeMismatch
                           "Cannot assign non-string type value to string index" line))
                | .Array arr, .Number num =>
                  if num < 0 || hasFract num then
                    .err s (.InvalidArrayIndex
                      s!"\x27{f64_display num}\x27 is an invalid type. Arrays can only be accessed with positive integers" line)
                  else
                    let pos_num := ratToUsize num
                    if pos_num ≥ arr.length then
                      .err s (.ArrayIndexOutOfBounds "Array index is out of bounds" line)
                    else
                      (match assign_var s env lexeme_name (.Array (arr.set pos_num result)) with
                       | .ok s' => .ok s' ()
                       | .error _ =>
                         .err s (.EnvironmentError
                           s!"\x27{lexeme_name}\x27 is a constant. Constant values cannot be reassigned." line))
                | _, _ => .err s (.InvalidMemberAccess "[]" line)
            else
              match property with
              | .Identifier lexeme _ =>
                (match obj with
                 | .Object map =>
                   let val := RuntimeVal.Object (mapInsert map lexeme result)
                   (match assign_var s env lexeme_name val with
                    | .ok s' => .ok s' ()
                    | .error _ =>
                      .err s (.EnvironmentError
                        s!"\x27{lexeme_name}\x27 is a constant. Constant values cannot be reassigned." line))
                 | .Class name static_fields methods superclass =>
                   (match mapGet methods lexeme with
                    | some _ =>
                      .err s (.TypeMismatch
                        s!"Cannot assign value to method \x27{lexeme}\x27 of class \x27{name}\x27" line)
                    | none =>
                      let val := RuntimeVal.Class name (mapInsert static_fields lexeme result)
                        methods superclass
                      (match assign_var s env name val with
                       | .ok s' => .ok s' ()
                       | .error _ => .err s .InternalError))
                 | .Instance _ instance_env =>
                   (match declare_var s instance_env lexeme result false with
                    | .ok s' => .ok s' ()
                    | .error _ =>
                      match assign_var s instance_env lexeme result with
                      | .ok s' => .ok s' ()
                      | .error _ => .err s .InternalError)
                 | _ => .err s (.InvalidMemberAccess "." line))
              | _ => .err s .InternalError
          store_step.andThen fun s _ => .ok s result
        | _ => .err s .InternalError
termination_by structural fuel

def evaluate (fuel : Nat) (ast_node : Stmt) (env : Nat) (s : Store) :
    RtOutcome EvalResult :=
  match fuel with
  | 0 => .oof
  | fuel + 1 =>
    match ast_node with
    | .Expression expr =>
      (evaluate_expr fuel expr env s).andThen fun s v => .ok s (.Value v)
    | .VarDeclaration declaration => var_declaration fuel declaration env s
    | .Print value new_line => print_stmt fuel value env s new_line
    | .IfElse if_collection => if_else_stmt fuel if_collection env s
    | .While expr stmts line => while_stmt fuel expr stmts env s line
    | .For var_stmt expr1 expr2 statements line =>
      for_stmt fuel var_stmt expr1 expr2 statements env s line
    | .Block stmts => block_stmt fuel stmts env s
    | .Return expr =>
      (evaluate_expr fuel expr env s).andThen fun s v => .ok s (.Return v)
    | .Break => .ok s .Break
    | .Continue => .ok s .Continue
    | .Function fd =>
      let function := RuntimeVal.Function fd.name fd.parameters fd.body env
      (match declare_var s env fd.name function true with
       | .ok s => .ok s .NoDisplay
       | .error _ =>
         let n := fd.name
         .err s (.EnvironmentError
           s!"{n} is already declared. Cannot redeclare variable with same name" fd.line))
    | .Class cd =>
      (class_decl fuel cd env s).andThen fun s _ => .ok s .NoDisplay
termination_by structural fuel

/-- The class-declaration block, written once here: the source duplicates it
verbatim in `evaluate` (`Stmt::Class`) and in `evaluate_first_pass`.  Static
field initializers are evaluated twice (once by `var_declaration`, once for
the `static_fields` map), exactly as in the source. -/
def class_decl (fuel : Nat) (cd : ClassDeclaration) (env : Nat) (s : Store) :
    RtOutcome Unit :=
  match fuel with
  | 0 => .oof
  | fuel + 1 =>
    (class_fields_loop fuel cd.static_fields env s []).andThen fun s fields =>
      let class_val := RuntimeVal.Class cd.name fields (build_methods cd.methods env)
        cd.superclass
      match declare_var s env cd.name class_val true with
      | .ok s => .ok s ()
      | .error _ =>
        let n := cd.name
        .err s (.EnvironmentError
          s!"{n} is already declared. Cannot redeclare variable with same name" cd.line)
termination_by structural fuel

def class_fields_loop (fuel : Nat) (static_fields : List VarDecl) (env : Nat) (s : Store)
    (fields : List (String × RuntimeVal)) : RtOutcome (List (String × RuntimeVal)) :=
  match fuel with
  | 0 => .oof
  | fuel + 1 =>
    match static_fields with
    | [] => .ok s fields
    | var :: rest =>
      (var_declaration fuel var env s).andThen fun s _ =>
        (evaluate_expr fuel var.value env s).andThen fun s res =>
          class_fields_loop fuel rest env s (mapInsert fields var.identifier res)
termination_by structural fuel

def var_declaration (fuel : Nat) (declaration : VarDecl) (env : Nat) (s : Store) :
    RtOutcome EvalResult :=
  match fuel with
  | 0 => .oof
  | fuel + 1 =>
    (evaluate_expr fuel declaration.value env s).andThen fun s value =>
      match declare_var s env declaration.identifier value declaration.constant with
      | .ok s => .ok s .NoDisplay
      | .error err =>
        -- only `ReDeclareVar` is surfaced; other errors fall through to `Ok`
        if err == .ReDeclareVar then
          let n := declaration.identifier
          .err s (.EnvironmentError
            s!"{n} is already declared. Cannot redeclare variable with same name"
            declaration.line)
        else .ok s .NoDisplay
termination_by structural fuel

/-- The expression loop of `print_stmt`; the rendered text goes to stdout,
which is external, so only the evaluation effects are modelled. -/
def print_loop (fuel : Nat) (exprs : List Expr) (env : Nat) (s : Store) :
    RtOutcome Unit :=
  match fuel with
  | 0 => .oof
  | fuel + 1 =>
    match exprs with
    | [] => .ok s ()
    | expr :: rest =>
      (evaluate_expr fuel expr env s).andThen fun s _ =>
        print_loop fuel rest env s
termination_by structural fuel

def print_stmt (fuel : Nat) (value : Option (List Expr)) (env : Nat) (s : Store)
    (_new_line : Bool) : RtOutcome EvalResult :=
  match fuel with
  | 0 => .oof
  | fuel + 1 =>
    match value with
    | some exprs =>
      (print_loop fuel exprs env s).andThen fun s _ => .ok s .NoDisplay
    | none => .ok s .NoDisplay
termination_by structural fuel

/-- The shared `for statement in statements { match evaluate(..) }` loop body
used (inlined verbatim each time) by blocks, if-else branches, and loop
bodies: runs the list until the first `Return`/`Break`/`Continue`. -/
def run_stmt_list (fuel : Nat) (stmts : List Stmt) (env : Nat) (s : Store) :
    RtOutcome EvalResult :=
  match fuel with
  | 0 => .oof
  | fuel + 1 =>
    match stmts with
    | [] => .ok s .NoDisplay
    | stmt :: rest =>
      (evaluate fuel stmt env s).andThen fun s res =>
        match res with
        | .Return val => .ok s (.Return val)
        | .Break => .ok s .Break
        | .Continue => .ok s .Continue
        | _ => run_stmt_list fuel rest env s
termination_by structural fuel

def if_else_loop (fuel : Nat) (collection : List IfBranch) (is_if_stmt : Bool)
    (local_env : Nat) (s : Store) : RtOutcome EvalResult :=
  match fuel with
  | 0 => .oof
  | fuel + 1 =>
    match collection with
    | [] => .ok s .NoDisplay
    | branch :: rest =>
      (evaluate_expr fuel branch.cond local_env s).andThen fun s condition =>
        match condition with
        | .Bool bit =>
          if !bit then if_else_loop fuel rest false local_env s
          else
            (run_stmt_list fuel branch.body local_env s).andThen fun s res =>
              match res with
              | .Return val => .ok s (.Return val)
              | .Break => .ok s .Break
              | .Continue => .ok s .Continue
              | _ => .ok s .NoDisplay
        | _ =>
          let str := if is_if_stmt then "if" else "else-if"
          .err s (.TypeMismatch
            s!"Expressions of {str} statements must be of type bool" branch.line)
termination_by structural fuel

def if_else_stmt (fuel : Nat) (collection : List IfBranch) (env : Nat) (s : Store) :
    RtOutcome EvalResult :=
  match fuel with
  | 0 => .oof
  | fuel + 1 =>
    let (s, local_env) := env_new (some env) s
    if_else_loop fuel collection true local_env s
termination_by structural fuel

def while_loop (fuel : Nat) (expr : Expr) (statements : List Stmt) (local_env : Nat)
    (s : Store) (line : Nat) : RtOutcome EvalResult :=
  match fuel with
  | 0 => .oof
  | fuel + 1 =>
    (evaluate_expr fuel expr local_env s).andThen fun s cond =>
      match cond with
      | .Bool bit =>
        if !bit then .ok s .NoDisplay
        else
          (run_stmt_list fuel statements local_env s).andThen fun s res =>
            match res with
            | .Return val => .ok s (.Return val)
            | .Break => .ok s .NoDisplay
            | _ => while_loop fuel expr statements local_env s line
      | _ =>
        .err s (.TypeMismatch "Only bool type allowed in for loop condition statement" line)
termination_by structural fuel

def while_stmt (fuel : Nat) (expr : Expr) (statements : List Stmt) (env : Nat)
    (s : Store) (line : Nat) : RtOutcome EvalResult :=
  match fuel with
  | 0 => .oof
  | fuel + 1 =>
    let (s, local_env) := env_new (some env) s
    while_loop fuel expr statements local_env s line
termination_by structural fuel

def for_loop (fuel : Nat) (expr1 : Expr) (expr2 : Expr) (statements : List Stmt)
    (local_env : Nat) (s : Store) (line : Nat) : RtOutcome EvalResult :=
  match fuel with
  | 0 => .oof
  | fuel + 1 =>
    (evaluate_expr fuel expr1 local_env s).andThen fun s cond =>
      match cond with
      | .Bool bit =>
        if !bit then .ok s .NoDisplay
        else
          (run_stmt_list fuel statements local_env s).andThen fun s res =>
            match res with
            | .Return val => .ok s (.Return val)
            | .Break => .ok s .NoDisplay
            | _ =>
              (evaluate fuel (.Expression expr2) local_env s).andThen fun s _ =>
                for_loop fuel expr1 expr2 statements local_env s line
      | _ =>
        .err s (.TypeMismatch "Only bool type allowed in for loop condition statement" line)
termination_by structural fuel

def for_stmt (fuel : Nat) (stmt : Stmt) (expr1 : Expr) (expr2 : Expr)
    (statements : List Stmt) (env : Nat) (s : Store) (line : Nat) :
    RtOutcome EvalResult :=
  match fuel with
  | 0 => .oof
  | fuel + 1 =>
    let (s, local_env) := env_new (some env) s
    (evaluate fuel stmt local_env s).andThen fun s _ =>
      for_loop fuel expr1 expr2 statements local_env s line
termination_by structural fuel

def block_stmt (fuel : Nat) (stmts : List Stmt) (env : Nat) (s : Store) :
    RtOutcome EvalResult :=
  match fuel with
  | 0 => .oof
  | fuel + 1 =>
    let (s, local_env) := env_new (some env) s
    (run_stmt_list fuel stmts local_env s).andThen fun s res =>
      match res with
      | .Return val => .ok s (.Return val)
      | .Break => .ok s .Break
      | .Continue => .ok s .Continue
      | _ => .ok s .NoDisplay
termination_by structural fuel

end

/-! ## Driver (`interpreter/interpreter/mod.rs`) -/

/-- The hoisting pass.  It runs in REPL mode too (`evaluate_program` calls it
unconditionally); `is_repl` only controls whether non-declaration statements
are tolerated (REPL) or an `InternalError` (script mode). -/
def evaluate_first_pass (fuel : Nat) (program : List Stmt) (env : Nat)
    (is_repl : Bool) (s : Store) : RtOutcome Unit :=
  match program with
  | [] => .ok s ()
  | statement :: rest =>
    match statement with
    | .Function function =>
      let func := RuntimeVal.Function function.name function.parameters function.body env
      (match declare_var s env function.name func true with
       | .ok s => evaluate_first_pass fuel rest env is_repl s
       | .error _ =>
         let n := function.name
         .err s (.EnvironmentError
           s!"{n} is already declared. Cannot redeclare variable with same name"
           function.line))
    | .Class cd =>
      (class_decl fuel cd env s).andThen fun s _ =>
        evaluate_first_pass fuel rest env is_repl s
    | _ =>
      if !is_repl then .err s .InternalError
      else evaluate_first_pass fuel rest env is_repl s

/-- The REPL display loop of `evaluate_program`: each statement is evaluated
and, when the result is a `Value`, that value is printed followed by a
newline; the outcome collects the displayed values in order (their textual
rendering is external). -/
def repl_loop (fuel : Nat) (program : List Stmt) (env : Nat) (s : Store)
    (displayed : List RuntimeVal) : RtOutcome (List RuntimeVal) :=
  match program with
  | [] => .ok s displayed
  | statement :: rest =>
    (evaluate fuel statement env s).andThen fun s res =>
      match res with
      | .Value val => repl_loop fuel rest env s (displayed ++ [val])
      | _ => repl_loop fuel rest env s displayed

def evaluate_program (fuel : Nat) (program : List Stmt) (env : Nat)
    (command_line_args : List String) (is_repl : Bool) (s : Store) :
    RtOutcome (List RuntimeVal) :=
  (evaluate_first_pass fuel program env is_repl s).andThen fun s _ =>
    if is_repl then
      repl_loop fuel program env s []
    else
      let args := command_line_args.map (fun str => Expr.StringLiteral str 0)
      let main_stmt := Stmt.Expression (.Call args (.Identifier "main" 0) 0)
      (evaluate fuel main_stmt env s).andThen fun s _ => .ok s []

/-! ## Expression parser (`parser/parser/mod.rs`, `parser/expression/mod.rs`).

The `Parser` snapshot in `parser/parser/mod.rs` lacks the `is_repl` field
that `parser/expression/mod.rs` and `lib.rs` use; the struct here carries it,
matching `Parser::new(tokens, is_repl)` as called from `lib.rs`.  The token
stream always ends with an `EOF` token, so the `self.tokens[0]` reads cannot
index an empty vector; the `headD` default below is unreachable. -/

structure Parser where
  tokens : List Token
  scope : List Scope
  is_repl : Bool
deriving DecidableEq, Repr

def Parser.new (tokens : List Token) (is_repl : Bool) : Parser :=
  ⟨tokens, [.Global], is_repl⟩

def Parser.at (p : Parser) : Token := p.tokens.headD ⟨.EOF, "", 0⟩

def Parser.eat (p : Parser) : Token × Parser :=
  (p.at, { p with tokens := p.tokens.tail })

def Parser.not_eof (p : Parser) : Bool := p.at.token_type != .EOF

/-- The last element of the scope stack (`self.scope.last().unwrap()`); the
stack starts as `[Global]` and the expression parser never pops it, so
`unwrap` cannot fail and the default is unreachable. -/
def Parser.scope_top (p : Parser) : Scope := p.scope.getLastD .Global

inductive PResult (α : Type) where
  | ok (p : Parser) (v : α)
  | err (e : ParserError)
  | oof
deriving DecidableEq, Repr

def PResult.andThen (r : PResult α) (f : Parser → α → PResult β) : PResult β :=
  match r with
  | .ok p v => f p v
  | .err e => .err e
  | .oof => .oof

def Parser.expect (p : Parser) (token : TokenType) (message : String) :
    PResult Token :=
  if !p.not_eof then .err .EOF
  else
    let tk := p.at
    if tk.token_type != token then .err (.UnExpectedToken message tk.line)
    else
      let (tk, p) := p.eat
      .ok p tk

mutual

def parse_expr (fuel : Nat) (p : Parser) : PResult Expr :=
  match fuel with
  | 0 => .oof
  | fuel + 1 =>
    (parse_assignment_expr fuel p).andThen fun p result =>
      if p.scope_top == .Global && !p.is_repl then
        .err (.ScopeError
          "Invalid expression in global scope. Only declarations are allowed."
          p.at.line)
      else
        match p.scope_top with
        | .Class name =>
          .err (.ScopeError s!"Invalid expression in class \x27{name}\x27." p.at.line)
        | _ => .ok p result
termination_by structural fuel

def parse_assignment_expr (fuel : Nat) (p : Parser) : PResult Expr :=
  match fuel with
  | 0 => .oof
  | fuel + 1 =>
    (parse_obj_expr fuel p).andThen fun p left =>
      if p.at.token_type == .EQUAL then
        let (tk, p) := p.eat
        (parse_assignment_expr fuel p).andThen fun p value =>
          .ok p (.AssignmentExpr left value tk.line)
      else
        let compound : Option (TokenType × String) :=
          match p.at.token_type with
          | .MINUSEQUAL => some (.MINUSEQUAL, "-")
          | .MODULUSEQUAL => some (.MODULUSEQUAL, "%")
          | .PLUSEQUAL => some (.PLUSEQUAL, "+")
          | .SLASHEQUAL => some (.SLASHEQUAL, "/")
          | .STAREQUAL => some (.STAREQUAL, "*")
          | _ => none
        match compound with
        | none => .ok p left
        | some (token, lexeme) =>
          let (tk, p) := p.eat
          (parse_expr fuel p).andThen fun p value =>
            .ok p (.AssignmentExpr left
              (.BinaryExpr left ⟨token, lexeme, tk.line⟩ value tk.line) tk.line)
termination_by structural fuel

def parse_obj_expr (fuel : Nat) (p : Parser) : PResult Expr :=
  match fuel with
  | 0 => .oof
  | fuel + 1 =>
    if p.at.token_type != .LEFTBRACE then parse_logical_expr fuel p
    else
      let (_, p) := p.eat
      obj_props_loop fuel p []
termination_by structural fuel

/-- The property loop of `parse_obj_expr`. -/
def obj_props_loop (fuel : Nat) (p : Parser) (properties : List Property) :
    PResult Expr :=
  match fuel with
  | 0 => .oof
  | fuel + 1 =>
    if p.not_eof && p.at.token_type != .RIGHTBRACE then
      if p.at.token_type != .IDENTIFIER && p.at.token_type != .STRING then
        let lex := p.at.lexeme
        .err (.ObjectKey s!"Found \x27{lex}\x27" p.at.line)
      else
        let (key, p) := p.eat
        if p.at.token_type == .COMMA then
          let (tk, p) := p.eat
          obj_props_loop fuel p (properties ++ [.mk key.lexeme none tk.line])
        else if p.at.token_type == .RIGHTBRACE then
          obj_props_loop fuel p (properties ++ [.mk key.lexeme none p.at.line])
        else
          (p.expect .COLON "Missing \x27:\x27 for declaring value of object fields").andThen
            fun p _ =>
              (parse_expr fuel p).andThen fun p value =>
                let properties := properties ++ [.mk key.lexeme (some value) p.at.line]
                if p.at.token_type != .RIGHTBRACE then
                  (p.expect .COMMA "Missing \x27,\x27 or \x27\x7d\x27 after object fields").andThen
                    fun p _ => obj_props_loop fuel p properties
                else obj_props_loop fuel p properties
    else
      (p.expect .RIGHTBRACE "Missing closing \x27\x7d\x27 for object").andThen fun p _ =>
        .ok p (.ObjectLiteral properties)
termination_by structural fuel

def parse_logical_expr (fuel : Nat) (p : Parser) : PResult Expr :=
  match fuel with
  | 0 => .oof
  | fuel + 1 =>
    (parse_equality_expr fuel p).andThen fun p left =>
      logical_loop fuel p left
termination_by structural fuel

def logical_loop (fuel : Nat) (p : Parser) (left : Expr) : PResult Expr :=
  match fuel with
  | 0 => .oof
  | fuel + 1 =>
    if p.at.token_type == .AND || p.at.token_type == .OR then
      let (operator, p) := p.eat
      (parse_equality_expr fuel p).andThen fun p right =>
        logical_loop fuel p (.ComparisonLiteral left operator right operator.line)
    else .ok p left
termination_by structural fuel

def parse_equality_expr (fuel : Nat) (p : Parser) : PResult Expr :=
  match fuel with
  | 0 => .oof
  | fuel + 1 =>
    (parse_comparison_expr fuel p).andThen fun p left =>
      equality_loop fuel p left
termination_by structural fuel

def equality_loop (fuel : Nat) (p : Parser) (left : Expr) : PResult Expr :=
  match fuel with
  | 0 => .oof
  | fuel + 1 =>
    if p.at.token_type == .EQUALEQUAL || p.at.token_type == .BANGEQUAL then
      let (operator, p) := p.eat
      (parse_comparison_expr fuel p).andThen fun p right =>
        equality_loop fuel p (.ComparisonLiteral left operator right operator.line)
    else .ok p left
termination_by structural fuel

def parse_comparison_expr (fuel : Nat) (p : Parser) : PResult Expr :=
  match fuel with
  | 0 => .oof
  | fuel + 1 =>
    (parse_additive_expr fuel p).andThen fun p left =>
      comparison_loop fuel p left
termination_by structural fuel

def comparison_loop (fuel : Nat) (p : Parser) (left : Expr) : PResult Expr :=
  match fuel with
  | 0 => .oof
  | fuel + 1 =>
    if p.at.token_type == .GREATER || p.at.token_type == .GREATEREQUAL
        || p.at.token_type == .LESS || p.at.token_type == .LESSEQUAL then
      let (operator, p) := p.eat
      (parse_additive_expr fuel p).andThen fun p right =>
        comparison_loop fuel p (.ComparisonLiteral left operator right operator.line)
    else .ok p left
termination_by structural fuel

def parse_additive_expr (fuel : Nat) (p : Parser) : PResult Expr :=
  match fuel with
  | 0 => .oof
  | fuel + 1 =>
    (parse_multiplicative_expr fuel p).andThen fun p left =>
      additive_loop fuel p left
termination_by structural fuel

/-- the source tests the lexeme, not the token type, at this level -/
def additive_loop (fuel : Nat) (p : Parser) (left : Expr) : PResult Expr :=
  match fuel with
  | 0 => .oof
  | fuel + 1 =>
    if p.at.lexeme == "+" || p.at.lexeme == "-" then
      let (operator, p) := p.eat
      (parse_multiplicative_expr fuel p).andThen fun p right =>
        additive_loop fuel p (.BinaryExpr left operator right operator.line)
    else .ok p left
termination_by structural fuel

def parse_multiplicative_expr (fuel : Nat) (p : Parser) : PResult Expr :=
  match fuel with
  | 0 => .oof
  | fuel + 1 =>
    (parse_unary_expr fuel p).andThen fun p left =>
      multiplicative_loop fuel p left
termination_by structural fuel

def multiplicative_loop (fuel : Nat) (p : Parser) (left : Expr) : PResult Expr :=
  match fuel with
  | 0 => .oof
  | fuel + 1 =>
    if p.at.lexeme == "*" || p.at.lexeme == "/" || p.at.lexeme == "%" then
      let (operator, p) := p.eat
      (parse_unary_expr fuel p).andThen fun p right =>
        multiplicative_loop fuel p (.BinaryExpr left operator right operator.line)
    else .ok p left
termination_by structural fuel

def parse_unary_expr (fuel : Nat) (p : Parser) : PResult Expr :=
  match fuel with
  | 0 => .oof
  | fuel + 1 =>
    if p.at.token_type == .BANG || p.at.token_type == .MINUS then
      let (operator, p) := p.eat
      (parse_expr fuel p).andThen fun p right =>
        .ok p (.Unary operator right operator.line)
    else parse_call_member_expr fuel p
termination_by structural fuel

def parse_call_member_expr (fuel : Nat) (p : Parser) : PResult Expr :=
  match fuel with
  | 0 => .oof
  | fuel + 1 =>
    (parse_member_expr fuel p).andThen fun p member =>
      if p.at.token_type == .LEFTPAREN then parse_call_expr fuel member p
      else .ok p member
termination_by structural fuel

def parse_call_expr (fuel : Nat) (caller : Expr) (p : Parser) : PResult Expr :=
  match fuel with
  | 0 => .oof
  | fuel + 1 =>
    if p.scope_top == .Global && !p.is_repl then
      .err (.UnExpectedToken
        "Unexpected function call expression in global scope. Did you forget to declare it using \x27fun\x27?"
        p.at.line)
    else
      match p.scope_top with
      | .Class name =>
        .err (.UnExpectedToken
          s!"Unexpected function call expression in class \x27{name}\x27. Did you forget to declare it using \x27fun\x27?"
          p.at.line)
      | _ =>
        (parse_args fuel p).andThen fun p args_line =>
          let call_expr := Expr.Call args_line.1 caller args_line.2
          if p.at.token_type == .LEFTPAREN then parse_call_expr fuel call_expr p
          else .ok p call_expr
termination_by structural fuel

def parse_args (fuel : Nat) (p : Parser) : PResult (List Expr × Nat) :=
  match fuel with
  | 0 => .oof
  | fuel + 1 =>
    (p.expect .LEFTPAREN "Missing \x27(\x27 for function call").andThen fun p tk =>
      if p.at.token_type == .RIGHTPAREN then
        (p.expect .RIGHTPAREN "Missing \x27)\x27 for function call").andThen fun p _ =>
          .ok p ([], tk.line)
      else
        (parse_arguments_list fuel p).andThen fun p args =>
          (p.expect .RIGHTPAREN "Missing \x27)\x27 for function call").andThen fun p _ =>
            .ok p (args, tk.line)
termination_by structural fuel

def parse_arguments_list (fuel : Nat) (p : Parser) : PResult (List Expr) :=
  match fuel with
  | 0 => .oof
  | fuel + 1 =>
    (parse_assignment_expr fuel p).andThen fun p first =>
      args_loop fuel p [first]
termination_by structural fuel

def args_loop (fuel : Nat) (p : Parser) (args : List Expr) : PResult (List Expr) :=
  match fuel with
  | 0 => .oof
  | fuel + 1 =>
    if p.at.token_type == .COMMA then
      let (_, p) := p.eat
      (parse_assignment_expr fuel p).andThen fun p a =>
        args_loop fuel p (args ++ [a])
    else .ok p args
termination_by structural fuel

def parse_member_expr (fuel : Nat) (p : Parser) : PResult Expr :=
  match fuel with
  | 0 => .oof
  | fuel + 1 =>
    (parse_primary_expr fuel p).andThen fun p object =>
      member_chain_loop fuel p object
termination_by structural fuel

def member_chain_loop (fuel : Nat) (p : Parser) (object : Expr) : PResult Expr :=
  match fuel with
  | 0 => .oof
  | fuel + 1 =>
    if p.at.token_type == .DOT || p.at.token_type == .LEFTBRACKET then
      let (operator, p) := p.eat
      if operator.token_type == .DOT then
        (parse_primary_expr fuel p).andThen fun p property =>
          match property with
          | .Identifier _ _ | .This _ | .Super _ _ =>
            member_chain_loop fuel p (.Member object property false operator.line)
          | _ => .err (.MemberExpr operator.line)
      else
        (parse_expr fuel p).andThen fun p property =>
          (p.expect .RIGHTBRACKET "Missing closing \x27]\x27 in member expression").andThen
            fun p _ =>
              member_chain_loop fuel p (.Member object property true operator.line)
    else .ok p object
termination_by structural fuel

def parse_primary_expr (fuel : Nat) (p : Parser) : PResult Expr :=
  match fuel with
  | 0 => .oof
  | fuel + 1 =>
    let (tk, p) := p.eat
    let line := tk.line
    match tk.token_type with
    | .IDENTIFIER => .ok p (.Identifier tk.lexeme line)
    | .STRING => .ok p (.StringLiteral tk.lexeme line)
    | .NUMBER =>
      -- `tk.lexeme.parse::<f64>().unwrap()`: the lexer only emits decimal
      -- number lexemes, for which `parse_f64` succeeds; the default is
      -- unreachable
      .ok p (.NumericLiteral ((parse_f64 tk.lexeme).getD 0) line)
    | .THIS =>
      -- `self.scope.iter().rev().any(..)`: `any` is direction-independent
      let valid := p.scope.any (fun sc =>
        match sc with
        | .Class _ | .Method _ | .Constructor _ => true
        | _ => false)
      if !valid then
        .err (.ScopeError
          "\x27this\x27 keyword is only allowed inside class methods or constructors" line)
      else .ok p (.This line)
    | .SUPER =>
      match p.scope.reverse.find? (fun sc =>
        match sc with
        | .Class _ => true
        | _ => false) with
      | some (.Class class_name) => .ok p (.Super class_name line)
      | _ =>
        .err (.ScopeError
          "\x27super\x27 keyword is only allowed inside class methods or constructors" line)
    | .TRUE => .ok p (.BoolLiteral true line)
    | .FALSE => .ok p (.BoolLiteral false line)
    | .NIL => .ok p (.Null line)
    | .LEFTPAREN =>
      (parse_expr fuel p).andThen fun p value =>
        (p.expect .RIGHTPAREN "Missing closing \x27)\x27 for grouping expression").andThen
          fun p _ => .ok p value
    | .LEFTBRACKET => array_elems_loop fuel p [] line
    | _ => .err (.PrimaryExpr tk.lexeme tk.line)
termination_by structural fuel

/-- The element loop of the `LEFTBRACKET` arm of `parse_primary_expr`:
elements are parsed with `parse_primary_expr` (not `parse_expr`). -/
def array_elems_loop (fuel : Nat) (p : Parser) (value : List Expr) (line : Nat) :
    PResult Expr :=
  match fuel with
  | 0 => .oof
  | fuel + 1 =>
    if p.at.token_type != .RIGHTBRACKET then
      (parse_primary_expr fuel p).andThen fun p elem =>
        let value := value ++ [elem]
        if p.at.token_type == .RIGHTBRACKET then
          let (_, p) := p.eat
          .ok p (.Array value line)
        else
          (p.expect .COMMA "Missing \x27,\x27 after array element").andThen fun p _ =>
            array_elems_loop fuel p value line
    else
      let (_, p) := p.eat
      .ok p (.Array value line)
termination_by structural fuel

end

/-! ## Concrete stores and inputs used by the claim theorems -/

/-- The interpreter's root environment: `lib.rs` runs with
`Environment::new(None)` on an empty store. -/
def global_store : Store := (env_new none []).1

/-- Spec-side helper (for comparison with the source's equality evaluator):
the exact value equality of two same-typed `Number`/`Bool`/`String`
operands, `none` on any other pairing. -/
def spec_prim_eq : RuntimeVal → RuntimeVal → Option Bool
  | .Number a, .Number b => some (a == b)
  | .Bool a, .Bool b => some (a == b)
  | .String a, .String b => some (a == b)
  | _, _ => none

/-- The callee kinds that `evaluate_function_call` dispatches on; every other
runtime value falls into the `_ => panic!()` arm. -/
def callable_value : RuntimeVal → Bool
  | .Function _ _ _ _ => true
  | .NativeFunction _ => true
  | .Method _ _ => true
  | .Class _ _ _ _ => true
  | _ => false

/-- A REPL line declaring `fun f() {}`. -/
def c2_prog : List Stmt := [.Function (.mk "f" [] [] 1)]

/-- The store after the hoisting pass has processed `c2_prog` in REPL mode
(it declares `f` as a constant in the root environment). -/
def c2_mid : Store :=
  match evaluate_first_pass 20 c2_prog 0 true global_store with
  | .ok s _ => s
  | _ => []

/-- The store after `const o = {};` has executed in the root environment. -/
def c3_store : Store :=
  match evaluate 10 (.VarDeclaration (.mk true "o" (.ObjectLiteral []) 1)) 0
      global_store with
  | .ok s _ => s
  | _ => []

/-- The member assignment `o.p = 1`. -/
def c3_assign : Expr :=
  .AssignmentExpr (.Member (.Identifier "o" 2) (.Identifier "p" 2) false 2)
    (.NumericLiteral 1 2) 2

/-- The store after `fun f(p) { return p; }` has been declared in the root
environment (so `f`'s closure is the root, environment `0`). -/
def c5_store_f : Store :=
  match evaluate 20 (.Function (.mk "f" ["p"] [.Return (.Identifier "p" 1)] 1)) 0
      global_store with
  | .ok s _ => s
  | _ => []

/-- A caller scope: a fresh child of the root, as a block or function body
would open. -/
def c5_caller : Store × Nat := env_new (some 0) c5_store_f

/-- The caller's scope additionally holds a local `var y = 7;` that is not
visible from `f`'s closure (the root). -/
def c5_store : Store := declare_ignore c5_caller.1 c5_caller.2 "y" (.Number 7) false

/-- The store after `fun g(p, q) { return q; }` has been declared in the
root environment. -/
def c5_store_g : Store :=
  match evaluate 20
      (.Function (.mk "g" ["p", "q"] [.Return (.Identifier "q" 1)] 1)) 0 global_store with
  | .ok s _ => s
  | _ => []

/-- A root environment whose variable `c` holds an arbitrary value. -/
def c7_store (v : RuntimeVal) : Store := declare_ignore global_store 0 "c" v false

/-- Token sequence of the source text `[1 + 2, f(x)]` (all on line 1). -/
def c9_tokens : List Token :=
  [⟨.LEFTBRACKET, "[", 1⟩, ⟨.NUMBER, "1", 1⟩, ⟨.PLUS, "+", 1⟩, ⟨.NUMBER, "2", 1⟩,
   ⟨.COMMA, ",", 1⟩, ⟨.IDENTIFIER, "f", 1⟩, ⟨.LEFTPAREN, "(", 1⟩,
   ⟨.IDENTIFIER, "x", 1⟩, ⟨.RIGHTPAREN, ")", 1⟩, ⟨.RIGHTBRACKET, "]", 1⟩,
   ⟨.EOF, "", 1⟩]

/-- Token sequence of a comma-separated identifier list (each on line 1). -/
def ident_commas : List String → List Token
  | [] => []
  | [n] => [⟨.IDENTIFIER, n, 1⟩]
  | n :: m :: rest => ⟨.IDENTIFIER, n, 1⟩ :: ⟨.COMMA, ",", 1⟩ :: ident_commas (m :: rest)

/-- Token sequence of the array literal `[n1, n2, …]` over identifiers. -/
def array_tokens (names : List String) : List Token :=
  ⟨.LEFTBRACKET, "[", 1⟩ :: (ident_commas names ++ [⟨.RIGHTBRACKET, "]", 1⟩])

/-- The store after `var y = 0; var x = {};` in the root environment. -/
def c10_store : Store :=
  declare_ignore (declare_ignore global_store 0 "y" (.Number 0) false) 0 "x"
    (.Object []) false

/-- The inner assignment `y = y + 1`. -/
def c10_rhs : Expr :=
  .AssignmentExpr (.Identifier "y" 3)
    (.BinaryExpr (.Identifier "y" 3) ⟨.PLUS, "+", 3⟩ (.NumericLiteral 1 3) 3) 3

/-- The member assignment `x["p"] = (y = y + 1)`. -/
def c10_assign : Expr :=
  .AssignmentExpr (.Member (.Identifier "x" 3) (.StringLiteral "p" 3) true 3) c10_rhs 3

/-- The eight bindings `set_global_scope` installs, in declaration order. -/
def global_builtins : List (String × RuntimeVal) :=
  [("clock", .NativeFunction .clock), ("min", .NativeFunction .min),
   ("max", .NativeFunction .max), ("number", .NativeFunction .number),
   ("bool", .NativeFunction .bool), ("string", .NativeFunction .string),
   ("var_type", .NativeFunction .type_of), ("reverse", .NativeFunction .reverse)]

/-- A child environment of the root, as opened for every block or call. -/
def c6_child : Store × Nat := env_new (some 0) global_store

/-! ## Helper lemmas -/

lemma get_concat_length (s : Store) (e : EnvData) :
    (s ++ [e]).get? s.length = some e := by
  induction s with
  | nil => rfl
  | cons x xs ih => simp [ih]

lemma set_concat_length (s : Store) (e e2 : EnvData) :
    (s ++ [e]).set s.length e2 = s ++ [e2] := by
  induction s with
  | nil => rfl
  | cons x xs ih => simp [List.set, ih]

lemma declare_ignore_concat (s : Store) (e : EnvData) (n : String) (v : RuntimeVal)
    (c : Bool) :
    declare_ignore (s ++ [e]) s.length n v c =
      s ++ [if mapContains e.vars n then e
            else ⟨e.parent, mapInsert e.vars n v,
                  if c then e.constants ++ [n] else e.constants⟩] := by
  unfold declare_ignore declare_var storeGet
  rw [get_concat_length]
  cases h : mapContains e.vars n <;> simp [h, set_concat_length]

lemma array_loop_step_ident (f : Nat) (n : String) (tks : List Token) (sc : List Scope)
    (r : Bool) (acc : List Expr) :
    array_elems_loop (f + 2) ⟨⟨.IDENTIFIER, n, 1⟩ :: ⟨.COMMA, ",", 1⟩ :: tks, sc, r⟩ acc 1
      = array_elems_loop (f + 1) ⟨tks, sc, r⟩ (acc ++ [.Identifier n 1]) 1 := rfl

lemma array_loop_idents (names : List String) :
    ∀ (fuel : Nat) (acc : List Expr) (rest : List Token) (sc : List Scope) (r : Bool),
      names.length + 1 ≤ fuel →
      array_elems_loop fuel
          ⟨ident_commas names ++ ⟨.RIGHTBRACKET, "]", 1⟩ :: rest, sc, r⟩ acc 1
        = .ok ⟨rest, sc, r⟩
            (.Array (acc ++ names.map (fun n => Expr.Identifier n 1)) 1) := by
  induction names with
  | nil =>
    intro fuel acc rest sc r h
    match fuel, h with
    | f + 1, _ =>
      simp [array_elems_loop, ident_commas, Parser.at, Parser.eat]
  | cons n ns ih =>
    intro fuel acc rest sc r h
    match ns, fuel, h with
    | [], f + 2, _ =>
      simp [array_elems_loop, ident_commas, parse_primary_expr, Parser.at, Parser.eat,
        PResult.andThen]
    | m :: ms, f + 2, h =>
      have hlen : (m :: ms).length + 1 ≤ f + 1 := by
        simp only [List.length_cons] at h ⊢
        omega
      simp only [ident_commas, List.cons_append]
      rw [array_loop_step_ident]
      rw [ih (f + 1) (acc ++ [Expr.Identifier n 1]) rest sc r hlen]
      simp

/-! ## The claims -/

/-- C1: the claim states that `min(a,b,…)` over Numbers returns the smallest
argument.  The source's accumulation loop runs `if *num > min { min = *num }`,
so the builtin returns the largest argument instead: `min(1, 2)` evaluates to
`2`, and `min(3, 5, 4)` to `5`.  This theorem evaluates the embedded builtin
at those failing inputs. -/
theorem C1_min_returns_largest :
    GlobalScope.min [.Number 1, .Number 2] 5 = .ok (.Number 2) ∧
    GlobalScope.min [.Number 3, .Number 5, .Number 4] 5 = .ok (.Number 5) :=
  ⟨rfl, rfl⟩

/-- C2: the claim states that the REPL skips the hoisting pass, so a function
entered at the REPL is declared once without a redeclaration error.  In the
source `evaluate_program` runs `evaluate_first_pass` unconditionally; in REPL
mode the pass declares the function (second conjunct), and the subsequent
per-statement evaluation of the same declaration then fails with the
redeclaration `EnvironmentError` (first conjunct).  The third conjunct
records the claim's display behaviour, which does hold: a statement producing
a `Value` has that value displayed. -/
theorem C2_repl_hoisting_pass_redeclares :
    evaluate_program 20 c2_prog 0 [] true global_store
      = .err c2_mid (.EnvironmentError
          "f is already declared. Cannot redeclare variable with same name" 1) ∧
    lookup_var c2_mid 0 "f" = .ok (.Function "f" [] [] 0) ∧
    evaluate_program 20 [.Expression (.NumericLiteral 3 1)] 0 [] true global_store
      = .ok global_store [.Number 3] :=
  ⟨rfl, rfl, rfl⟩

/-- C3: the claim states that a member assignment on a const-bound variable
fails with an `EnvironmentError` and leaves the binding unchanged.  With
`const o = {};`, the inner member store `equate_member_expr` does produce the
`EnvironmentError` (second conjunct) and the binding of `o` is unchanged
(third conjunct), but `evaluate_assignment` discards that error
(`let _ = equate_member_expr(...)`) and returns the re-evaluated right-hand
side, so the assignment expression `o.p = 1` evaluates successfully to `1`
with the store unchanged (first conjunct) — the claimed failure never
surfaces. -/
theorem C3_const_member_assignment_error_swallowed :
    evaluate_expr 10 c3_assign 0 c3_store = .ok c3_store (.Number 1) ∧
    equate_member_expr 10 (.Identifier "o" 2) (.Identifier "p" 2) false
        (.NumericLiteral 1 2) 0 c3_store 2
      = .err c3_store (.EnvironmentError
          "\x27o\x27 is a constant. Constant values cannot be reassigned." 2) ∧
    lookup_var c3_store 0 "o" = .ok (.Object []) := by
  refine ⟨by with_unfolding_all rfl, by with_unfolding_all rfl, rfl⟩

/-- C4: for `==`/`!=`, two same-typed `Number`/`Bool`/`String` operands give
the `Bool` of exact value equality (inequality for `!=`) with no coercion,
and every other pairing — different runtime types, or any operand outside
those three kinds — is a `TypeMismatch` error. -/
theorem C4_equality_strict_same_type (left right : RuntimeVal) (operator : String)
    (line : Nat) (hop : operator = "==" ∨ operator = "!=") :
    (match spec_prim_eq left right with
     | some b => evaluate_equality_expr left right operator line
         = .ok (.Bool (if operator == "==" then b else !b))
     | none => evaluate_equality_expr left right operator line
         = .error (.TypeMismatch
             s!"{operator} equality operation is only valid for numbers, bools and strings"
             line)) := by
  rcases hop with rfl | rfl <;>
    cases left <;> cases right <;>
      simp [evaluate_equality_expr, spec_prim_eq, bne]

/-- Witness for C4 at concrete inputs: `1 == 1` gives `true`, and comparing a
`Number` with a `String` is a `TypeMismatch`. -/
theorem C4_equality_strict_same_type_witness :
    evaluate_equality_expr (.Number 1) (.Number 1) "==" 7 = .ok (.Bool true) ∧
    evaluate_equality_expr (.Number 1) (.String "x") "==" 7
      = .error (.TypeMismatch
          "== equality operation is only valid for numbers, bools and strings" 7) :=
  ⟨C4_equality_strict_same_type (.Number 1) (.Number 1) "==" 7 (Or.inl rfl),
   C4_equality_strict_same_type (.Number 1) (.String "x") "==" 7 (Or.inl rfl)⟩

/-- C5: the claim states that call arguments are evaluated in the caller's
environment, so a caller-local variable can be passed as an argument.  In
the source, `evaluate_function_body` evaluates each argument in `local_env` —
the callee's fresh environment whose parent is the function's closure.
First conjunct: with `fun f(p) { return p; }` declared at the root and a
caller-local `var y = 7;`, the call `f(y)` fails with `EnvironmentError`
("y is not declared") even though `y` is visible at the call site.  Second
conjunct: with `fun g(p, q) { return q; }`, the call `g(5, p)` succeeds and
returns `5`, because the second argument `p` is resolved against the
parameter just declared in the callee's own environment — impossible under
the claimed caller-environment semantics. -/
theorem C5_arguments_evaluated_in_callee_env :
    evaluate_expr 20 (.Call [.Identifier "y" 3] (.Identifier "f" 3) 3)
        c5_caller.2 c5_store
      = .err (env_new (some 0) c5_store).1
          (.EnvironmentError "\x27y\x27 is not declared." 3) ∧
    (∃ s2, evaluate_expr 20
        (.Call [.NumericLiteral 5 3, .Identifier "p" 3] (.Identifier "g" 3) 3) 0 c5_store_g
      = .ok s2 (.Number 5)) := by
  refine ⟨by with_unfolding_all rfl, ⟨_, by with_unfolding_all rfl⟩⟩

/-- C6 counterexample: the claim states that only the global root carries
the builtin library of §6 and that a child environment starts with no builtin
bindings of its own.  Both parts fail on the code: an environment created
with a parent has `min` bound in its own variable map (first two conjuncts),
and the root does not carry the §6 library — `scan` and `type_of` are not
declared at all (the `type_of` native is bound under the name `var_type`). -/
theorem C6_child_env_builtins_counterexample :
    mapContains (storeGet c6_child.1 c6_child.2).vars "min" = true ∧
    (storeGet c6_child.1 c6_child.2).parent = some 0 ∧
    lookup_var global_store 0 "scan" = .error .VarNotDeclared ∧
    lookup_var global_store 0 "type_of" = .error .VarNotDeclared ∧
    lookup_var global_store 0 "var_type" = .ok (.NativeFunction .type_of) :=
  ⟨rfl, rfl, rfl, rfl, rfl⟩

/-- C6 as amended: `Environment::new` runs `set_global_scope` on every
environment it creates, parent or not, so each one starts with exactly the
eight builtins `clock, min, max, number, bool, string, var_type, reverse`
declared as constants in its own variable map. -/
theorem C6_every_env_seeded_with_builtins (p : Option Nat) (s : Store) :
    env_new p s =
      (s ++ [⟨p, global_builtins,
        ["clock", "min", "max", "number", "bool", "string", "var_type", "reverse"]⟩],
       s.length) := by
  simp only [env_new, set_global_scope, declare_ignore_concat]
  simp [mapContains, mapInsert, beq_iff_eq, global_builtins]

/-- C7 counterexample: the claim states that calling a non-callable value
yields a structured `InvalidCall` runtime error and never aborts the
interpreter.  Evaluating the call expression `1()` hits the
`_ => panic!()` arm and aborts the process. -/
theorem C7_call_on_number_panics :
    evaluate_expr 20 (.Call [] (.NumericLiteral 1 1) 1) 0 global_store = .panic := rfl

/-- C7 as amended: for every call whose callee evaluates to a value that is
not a `Function`, `Method`, `Class`, or `NativeFunction`, evaluation panics
(aborting the interpreter); this snapshot's `RuntimeError` has no
`InvalidCall` variant at all. -/
theorem C7_noncallable_call_panics (v : RuntimeVal) (args : List Expr) (line : Nat)
    (fuel : Nat) (h : callable_value v = false) :
    evaluate_function_call (fuel + 2) args (.Identifier "c" 1) 0 (c7_store v) line
      = .panic := by
  cases v with
  | Bool b => rfl
  | Nil => rfl
  | Number n => rfl
  | String str => rfl
  | Object m => rfl
  | Array a => rfl
  | Instance c e => rfl
  | Function a b c d => exact Bool.noConfusion h
  | NativeFunction f => exact Bool.noConfusion h
  | Method a b => exact Bool.noConfusion h
  | Class a b c d => exact Bool.noConfusion h

/-- Witness for C7: calling a variable bound to the number `1` panics. -/
theorem C7_noncallable_call_panics_witness :
    evaluate_function_call 2 [] (.Identifier "c" 1) 0 (c7_store (.Number 1)) 9 = .panic :=
  C7_noncallable_call_panics (.Number 1) [] 9 0 rfl

/-- C8: the claim states that `append(arr, v)` returns `arr` with `v`
inserted at the end.  The source computes `position = array.len() - 1`, so
the value is inserted before the last element: `append([1], 2)` gives
`[2, 1]` and `append([1, 7], 2)` gives `[1, 2, 7]`; on an empty array the
`usize` subtraction underflows and the process aborts. -/
theorem C8_append_inserts_before_last :
    GlobalScope.append [.Array [.Number 1], .Number 2] 5
      = .ok (.Array [.Number 2, .Number 1]) ∧
    GlobalScope.append [.Array [.Number 1, .Number 7], .Number 2] 5
      = .ok (.Array [.Number 1, .Number 2, .Number 7]) ∧
    GlobalScope.append [.Array [], .Number 2] 5 = .panic :=
  ⟨rfl, rfl, rfl⟩

/-- C9 counterexample: the claim states that array literals accept arbitrary
expressions as elements, e.g. `[1 + 2, f(x)]`.  The element parser is
`parse_primary_expr`, so after the primary `1` the `+` token fails the comma
check and parsing errors out. -/
theorem C9_array_literal_general_exprs_fail :
    parse_primary_expr 20 ⟨c9_tokens, [.Global, .Function "main"], false⟩
      = .err (.UnExpectedToken "Missing \x27,\x27 after array element" 1) := by
  with_unfolding_all rfl

/-- C9 as amended: array literal parsing accepts
`'[' (primary (',' primary)*)? ']'` — each element is a primary expression.
For every comma-separated list of identifier elements the literal parses into
the `Array` node of those identifiers (given fuel beyond the element
count). -/
theorem C9_array_literal_primary_elements (names : List String) (fuel : Nat)
    (sc : List Scope) (r : Bool) (rest : List Token)
    (h : names.length + 2 ≤ fuel) :
    parse_primary_expr fuel ⟨array_tokens names ++ rest, sc, r⟩
      = .ok ⟨rest, sc, r⟩ (.Array (names.map (fun n => Expr.Identifier n 1)) 1) := by
  match fuel, h with
  | f + 1, h =>
    have hlen : names.length + 1 ≤ f := by omega
    simp only [array_tokens, List.cons_append, List.append_assoc, List.singleton_append,
      List.nil_append]
    rw [show parse_primary_expr (f + 1)
        ⟨⟨.LEFTBRACKET, "[", 1⟩ :: (ident_commas names ++ ⟨.RIGHTBRACKET, "]", 1⟩ :: rest),
         sc, r⟩
      = array_elems_loop f
          ⟨ident_commas names ++ ⟨.RIGHTBRACKET, "]", 1⟩ :: rest, sc, r⟩ [] 1 from rfl]
    rw [array_loop_idents names f [] rest sc r hlen]
    simp

/-- Witness for C9: `[a, b]` parses into the two-element array of
identifiers. -/
theorem C9_array_literal_primary_elements_witness :
    parse_primary_expr 10 ⟨array_tokens ["a", "b"] ++ [⟨.EOF, "", 1⟩], [.Global], true⟩
      = .ok ⟨[⟨.EOF, "", 1⟩], [.Global], true⟩
          (.Array [.Identifier "a" 1, .Identifier "b" 1] 1) :=
  C9_array_literal_primary_elements ["a", "b"] 10 [.Global] true [⟨.EOF, "", 1⟩]
    (by norm_num)

/-- C10: for every accepted member assignment, the right-hand side is
evaluated twice — once by the member store (`equate_member_expr`) and again
to produce the expression's result.  The first conjunct is the general
equation: evaluating `(member) = value` performs the member store (errors
discarded) and then re-evaluates `value` on the resulting store, the second
evaluation's value being the overall result.  The second conjunct exhibits
the doubled side effect: with `var y = 0; var x = {};`, the assignment
`x["p"] = (y = y + 1)` stores `1` in `x["p"]` (first evaluation), leaves
`y` at `2` (both evaluations), and yields `2` (the second evaluation's
value). -/
theorem C10_member_assignment_rhs_evaluated_twice :
    (∀ (object property : Expr) (computed : Bool) (value : Expr) (l l2 env : Nat)
       (s : Store) (fuel : Nat),
      evaluate_expr (fuel + 2)
          (.AssignmentExpr (.Member object property computed l) value l2) env s =
        match equate_member_expr fuel object property computed value env s l with
        | .panic => .panic
        | .oof => .oof
        | .ok s' _ => evaluate_expr fuel value env s'
        | .err s' _ => evaluate_expr fuel value env s') ∧
    (∃ s', evaluate_expr 20 c10_assign 0 c10_store = .ok s' (.Number 2)
      ∧ lookup_var s' 0 "y" = .ok (.Number 2)
      ∧ lookup_var s' 0 "x" = .ok (.Object [("p", .Number 1)])) := by
  refine ⟨fun _ _ _ _ _ _ _ _ _ => rfl,
    ⟨_, by with_unfolding_all rfl, by with_unfolding_all rfl, by with_unfolding_all rfl⟩⟩

end Lox
